import Mathlib

/-!
Verification of the recipe execution pipeline in
`src/pangeo_forge/recipe/recipe.py` against its specification.

The Python source is an early sketch: it references a few names that are
defined nowhere in the file (`filenames_for_chunk`, `get_write_region`,
`get_store_target`, `path`, the misspelling `input_chache`).  Spec section 9
instructs readers to treat such dangling references as latent defects and
names the canonical definitions (`inputs_for_chunk` for `filenames_for_chunk`,
writes through the target mapper).  The embedding below models each function's
evident control flow and arithmetic from the source; wherever a dangling name
is resolved to its evident referent, or an external collaborator (fsspec,
xarray, zarr) is modelled from the spec's interface section, the doc comment
of the definition says so.
-/

namespace PangeoForge

/-- Python exceptions raised (or named by the spec) for the code under study.
`keyError` is what a Python `dict` lookup raises for a missing key
(`_chunks_files[chunk_key]`, recipe.py:168); `ioError` is raised with a
message at recipe.py:98; `typeError` models calling a non-callable object;
`notImplementedError` is raised by the `DatasetRecipe` stubs
(recipe.py:52-62).  `incompleteWriteError` is the spec's name (section 7) for
a finalize-time missing-region failure; no code in the file raises it -- it
is included only so that spec claims mentioning it can be stated. -/
inductive PyError where
  | keyError
  | ioError (msg : String)
  | typeError (msg : String)
  | attributeError (name : String)
  | notImplementedError
  | incompleteWriteError
  deriving DecidableEq, Repr

/-- The input cache (the `InputCache` collaborator of
`InputCachingMixin`, recipe.py:77): a key/value byte store keyed by file
name.  Bytes are modelled as `List Nat`.  Later writes shadow earlier
entries, matching wholesale overwrite of a cache entry. -/
structure InputCache where
  entries : List (String × List Nat)
  deriving DecidableEq, Repr

/-- `self.input_cache.exists(fname)` (recipe.py:94). -/
def InputCache.existsKey (c : InputCache) (fname : String) : Bool :=
  (c.entries.lookup fname).isSome

/-- `self.input_cache.open(fname, mode="rb")` (recipe.py:95): read the cached
bytes for `fname`, if present. -/
def InputCache.openRead (c : InputCache) (fname : String) : Option (List Nat) :=
  c.entries.lookup fname

/-- `self.input_cache.open(fname, mode="wb")` followed by
`target.write(source.read())` (recipe.py:87-88): overwrite the entry for
`fname` wholesale with `bytes`. -/
def InputCache.openWrite (c : InputCache) (fname : String) (bytes : List Nat) : InputCache :=
  ⟨(fname, bytes) :: c.entries⟩

/-- `FSSpecFileOpenerMixin.input_opener` (recipe.py:69-72): open `fname`
directly from the origin with fsspec.  fsspec is an external collaborator;
the origin is modelled as a map `source` from file name to byte contents
(spec section 6, `SourceOpener.open_direct`).  (The source line reads the
bare name `input_open_kwargs` where `self.input_open_kwargs` is evidently
meant; the kwargs do not affect the bytes read.) -/
def open_direct (source : String → List Nat) (fname : String) : List Nat :=
  source fname

/-- `InputCachingMixin.cache_input` (recipe.py:82-90): read the full payload
via the direct (uncached) opener and write it wholesale into the cache under
`fname`. -/
def cache_input (source : String → List Nat) (c : InputCache) (fname : String) : InputCache :=
  c.openWrite fname (open_direct source fname)

/-- `InputCachingMixin.input_opener` (recipe.py:92-102): if the cache has an
entry for `fname`, yield the cached bytes; else if `require_cache`, raise
`IOError`; else fall back to the direct opener.  Two spelling slips in the
source are resolved to their evident referents: recipe.py:95 reads
`self.input_chache` for `self.input_cache`, and recipe.py:101 passes a
`mode` keyword the base opener does not accept. -/
def input_opener (source : String → List Nat) (require_cache : Bool)
    (c : InputCache) (fname : String) : Except PyError (List Nat) :=
  if c.existsKey fname then
    match c.openRead fname with
    | some bytes => Except.ok bytes
    | none => Except.error PyError.keyError
  else if require_cache then
    Except.error (PyError.ioError "Input can only be opened from cache. Call .cache_input first.")
  else
    Except.ok (open_direct source fname)

theorem lookup_cons_self (x : String) (b : List Nat) (rest : List (String × List Nat)) :
    ((x, b) :: rest).lookup x = some b := by
  simp [List.lookup]

/-- C5: for an input key with no cache entry, opening with
`require_cache = true` fails with the cache-miss `IOError` of recipe.py:98
(the error the spec's taxonomy names `CacheMissError`), and opening with
`require_cache = false` succeeds with the bytes of the direct (uncached)
opener. -/
theorem C5_cache_fallback_policy (source : String → List Nat) (c : InputCache)
    (x : String) (h : c.existsKey x = false) :
    input_opener source true c x =
      Except.error (PyError.ioError "Input can only be opened from cache. Call .cache_input first.") ∧
    input_opener source false c x = Except.ok (open_direct source x) := by
  constructor <;> simp [input_opener, h]

/-- Witness for C5 at a concrete empty cache and input key. -/
theorem C5_cache_fallback_policy_witness :
    (InputCache.mk []).existsKey "f0" = false ∧
    input_opener (fun _ => [7, 7]) true (InputCache.mk []) "f0" =
      Except.error (PyError.ioError "Input can only be opened from cache. Call .cache_input first.") ∧
    input_opener (fun _ => [7, 7]) false (InputCache.mk []) "f0" =
      Except.ok (open_direct (fun _ => [7, 7]) "f0") :=
  ⟨rfl,
   (C5_cache_fallback_policy (fun _ => [7, 7]) (InputCache.mk []) "f0" rfl).1,
   (C5_cache_fallback_policy (fun _ => [7, 7]) (InputCache.mk []) "f0" rfl).2⟩

/-- C6: after `cache_input x`, the cache holds exactly the bytes the direct
opener yields, and `input_opener` (under either caching policy) returns those
same bytes: the cache round-trip is the identity on the payload. -/
theorem C6_cache_round_trip (source : String → List Nat) (c : InputCache)
    (require_cache : Bool) (x : String) :
    (cache_input source c x).openRead x = some (open_direct source x) ∧
    input_opener source require_cache (cache_input source c x) x =
      Except.ok (open_direct source x) := by
  have hread : (cache_input source c x).openRead x = some (open_direct source x) := by
    simp [cache_input, InputCache.openWrite, InputCache.openRead, List.lookup]
  refine ⟨hread, ?_⟩
  have hex : (cache_input source c x).existsKey x = true := by
    simp [InputCache.existsKey, InputCache.openRead] at hread ⊢
    simp [cache_input, InputCache.openWrite, List.lookup]
  simp [input_opener, hex, hread]

/-- The destination array store (the `Target` of recipe.py:10,44), reduced to
its growth dimension: one cell of data per index along the sequence
dimension.  Region-indexed writes replace a contiguous run of cells. -/
structure TargetStore where
  cells : List Int
  deriving DecidableEq, Repr

/-- Modelled from the spec: `chunked_iterable` is imported from
`pangeo_forge/utils.py` (recipe.py:9), which is not among the sources here.
Spec section 4.1: chunk `k` owns the input positions
`[k*inputs_per_chunk, (k+1)*inputs_per_chunk)`, clipped to the sequence
length for the final chunk, and `num_chunks = ceil(len(inputs) /
inputs_per_chunk)`. -/
def chunked_iterable (l : List α) (size : Nat) : List (List α) :=
  (List.range ((l.length + size - 1) / size)).map fun k => (l.drop (k * size)).take size

/-- `FileSequenceRecipe` (recipe.py:154-159), a dataclass extending
`DatasetRecipe` (recipe.py:42-44, contributing the `target` field).  Note
recipe.py:186 also defines a method named `sequence_dim`; on a constructed
instance the field below shadows it (see the attribute model further down). -/
structure FileSequenceRecipe where
  target : TargetStore
  file_urls : List String
  sequence_dim : String
  files_per_chunk : Nat := 1
  nitems_per_file : Nat := 1

/-- `self._chunks_files` built in `__post_init__` (recipe.py:162-164): the
dict `{k: v for k, v in enumerate(chunked_iterable(file_urls,
files_per_chunk))}`, i.e. the chunk list indexed by position. -/
def FileSequenceRecipe.chunks_files (r : FileSequenceRecipe) : List (List String) :=
  chunked_iterable r.file_urls r.files_per_chunk

/-- The number of chunk keys: the size of the `_chunks_files` dict. -/
def FileSequenceRecipe.num_chunks (r : FileSequenceRecipe) : Nat :=
  r.chunks_files.length

/-- `inputs_for_chunk` (recipe.py:167-168): `self._chunks_files[chunk_key]`.
The dict's keys are exactly `0 .. num_chunks - 1`; any other key (negative
or too large) raises Python's `KeyError`. -/
def FileSequenceRecipe.inputs_for_chunk (r : FileSequenceRecipe) (chunk_key : Int) :
    Except PyError (List String) :=
  if h : 0 ≤ chunk_key ∧ chunk_key.toNat < r.chunks_files.length then
    Except.ok (r.chunks_files.get ⟨chunk_key.toNat, h.2⟩)
  else Except.error PyError.keyError

/-- Modelled from the spec: `filenames_for_chunk` is called at recipe.py:172
but defined nowhere in the sources; spec section 9 declares
`inputs_for_chunk` canonical and any other reading a latent defect, so the
model resolves the call to `inputs_for_chunk`. -/
def FileSequenceRecipe.filenames_for_chunk (r : FileSequenceRecipe) (chunk_key : Int) :
    Except PyError (List String) :=
  r.inputs_for_chunk chunk_key

/-- `nitems_for_chunk` (recipe.py:171-172):
`self.nitems_per_file * len(self.filenames_for_chunk(chunk_key))`. -/
def FileSequenceRecipe.nitems_for_chunk (r : FileSequenceRecipe) (chunk_key : Int) :
    Except PyError Nat :=
  (r.filenames_for_chunk chunk_key).map fun files => r.nitems_per_file * files.length

/-- The single-entry dict `{self.sequence_dim: slice(start, stop)}` returned
by `region_for_chunk`, suitable to pass to `xr.to_zarr(region=...)`. -/
structure WriteRegion where
  dim : String
  start : Int
  stop : Int
  deriving DecidableEq, Repr

/-- `region_for_chunk` (recipe.py:175-183): with
`stride = nitems_per_file * files_per_chunk` and `start = chunk_key * stride`,
return `{sequence_dim: slice(start, start + nitems_for_chunk(chunk_key))}`.
(`self.sequence_dim` here is the instance's string field.) -/
def FileSequenceRecipe.region_for_chunk (r : FileSequenceRecipe) (chunk_key : Int) :
    Except PyError WriteRegion :=
  let stride : Int := (r.nitems_per_file * r.files_per_chunk : Nat)
  let start : Int := chunk_key * stride
  (r.nitems_for_chunk chunk_key).map fun (n : Nat) =>
    { dim := r.sequence_dim, start := start, stop := start + (n : Int) }

/-- `iter_chunks` (recipe.py:199-201): yield the keys of `_chunks_files`,
i.e. `0, 1, ..., num_chunks - 1` in insertion order. -/
def FileSequenceRecipe.iter_chunks (r : FileSequenceRecipe) : List Int :=
  (List.range r.num_chunks).map fun k => (k : Int)

/-- The total size of the dataset along the sequence dimension: the sum of
`nitems_for_chunk` over all chunk keys (the computation of the shadowed
method body at recipe.py:186-191, expressed over the chunk list so that it
is total). -/
def FileSequenceRecipe.total_sequence_len (r : FileSequenceRecipe) : Nat :=
  (r.chunks_files.map fun files => r.nitems_per_file * files.length).sum

/-- The concrete scenario of spec section 8: ten input files,
`files_per_chunk = 3`, `nitems_per_file = 1`. -/
def rec10 : FileSequenceRecipe :=
  { target := ⟨[]⟩
    file_urls := ["f0", "f1", "f2", "f3", "f4", "f5", "f6", "f7", "f8", "f9"]
    sequence_dim := "time"
    files_per_chunk := 3
    nitems_per_file := 1 }

theorem chunks_files_length (r : FileSequenceRecipe) :
    r.chunks_files.length =
      (r.file_urls.length + r.files_per_chunk - 1) / r.files_per_chunk := by
  simp [FileSequenceRecipe.chunks_files, chunked_iterable]

theorem inputs_for_chunk_ok (r : FileSequenceRecipe) (k : Nat) (hk : k < r.num_chunks) :
    r.inputs_for_chunk (k : Int) =
      Except.ok ((r.file_urls.drop (k * r.files_per_chunk)).take r.files_per_chunk) := by
  have hk' : ((k : Int)).toNat < r.chunks_files.length := by
    simpa [FileSequenceRecipe.num_chunks] using hk
  rw [FileSequenceRecipe.inputs_for_chunk, dif_pos ⟨Int.ofNat_nonneg k, hk'⟩]
  congr 1
  have hget : r.chunks_files.get ⟨(k : Int).toNat, hk'⟩ =
      (r.file_urls.drop ((k : Int).toNat * r.files_per_chunk)).take r.files_per_chunk := by
    simp [FileSequenceRecipe.chunks_files, chunked_iterable]
  simpa using hget

theorem inputs_for_chunk_err (r : FileSequenceRecipe) (k : Int)
    (hk : ¬(0 ≤ k ∧ k < (r.num_chunks : Int))) :
    r.inputs_for_chunk k = Except.error PyError.keyError := by
  rw [FileSequenceRecipe.inputs_for_chunk, dif_neg]
  intro ⟨h0, hlen⟩
  apply hk
  refine ⟨h0, ?_⟩
  have hlen' : k.toNat < r.num_chunks := by
    simpa [FileSequenceRecipe.num_chunks] using hlen
  omega

theorem nitems_for_chunk_ok (r : FileSequenceRecipe) (k : Int) (files : List String)
    (h : r.inputs_for_chunk k = Except.ok files) :
    r.nitems_for_chunk k = Except.ok (r.nitems_per_file * files.length) := by
  simp [FileSequenceRecipe.nitems_for_chunk, FileSequenceRecipe.filenames_for_chunk, h,
    Except.map]

theorem chunk_index_lt_iff (n c k : Nat) (hc : 1 ≤ c) :
    k < (n + c - 1) / c ↔ k * c < n := by
  have h0 : 0 < c := hc
  constructor
  · intro h
    have h2 : (k + 1) * c ≤ n + c - 1 := (Nat.le_div_iff_mul_le h0).mp h
    rw [add_mul, one_mul] at h2
    omega
  · intro h
    have h2 : (k + 1) * c ≤ n + c - 1 := by rw [add_mul, one_mul]; omega
    exact (Nat.le_div_iff_mul_le h0).mpr h2

theorem chunk_lt_mul (r : FileSequenceRecipe) (hc : 1 ≤ r.files_per_chunk)
    (k : Nat) (hk : k < r.num_chunks) :
    k * r.files_per_chunk < r.file_urls.length := by
  rw [FileSequenceRecipe.num_chunks, chunks_files_length] at hk
  exact (chunk_index_lt_iff _ _ _ hc).mp hk

theorem full_chunk_min (r : FileSequenceRecipe) (hc : 1 ≤ r.files_per_chunk)
    (k : Nat) (hk : k + 1 < r.num_chunks) :
    min r.files_per_chunk (r.file_urls.length - k * r.files_per_chunk) =
      r.files_per_chunk := by
  have h := chunk_lt_mul r hc (k + 1) hk
  rw [add_mul, one_mul] at h
  omega

/-- The start offset of chunk `k` along the growth dimension, as a natural
number: `k * stride` with `stride = nitems_per_file * files_per_chunk`
(recipe.py:178-179). -/
def FileSequenceRecipe.region_start (r : FileSequenceRecipe) (k : Nat) : Nat :=
  k * (r.nitems_per_file * r.files_per_chunk)

/-- The item count of chunk `k` as a natural number: `nitems_per_file` times
the (clipped) size of chunk `k`. -/
def FileSequenceRecipe.region_nitems (r : FileSequenceRecipe) (k : Nat) : Nat :=
  r.nitems_per_file *
    min r.files_per_chunk (r.file_urls.length - k * r.files_per_chunk)

/-- The computed write region of a valid chunk key, in closed form. -/
theorem region_for_chunk_ok (r : FileSequenceRecipe) (k : Nat) (hk : k < r.num_chunks) :
    r.region_for_chunk (k : Int) = Except.ok
      { dim := r.sequence_dim
        start := ((r.region_start k : Nat) : Int)
        stop := ((r.region_start k + r.region_nitems k : Nat) : Int) } := by
  have hin := inputs_for_chunk_ok r k hk
  have hn := nitems_for_chunk_ok r (k : Int) _ hin
  simp only [FileSequenceRecipe.region_for_chunk, hn, Except.map, Except.ok.injEq,
    WriteRegion.mk.injEq, FileSequenceRecipe.region_start, FileSequenceRecipe.region_nitems,
    List.length_take, List.length_drop]
  push_cast
  and_intros <;> trivial

theorem sum_map_range_const (t v : Nat) (f : Nat → Nat) (hf : ∀ k, k < t → f k = v) :
    ((List.range t).map f).sum = t * v := by
  induction t with
  | zero => simp
  | succ t ih =>
      rw [List.range_succ, List.map_append, List.sum_append,
        ih (fun k hk => hf k (by omega))]
      simp only [List.map_cons, List.map_nil, List.sum_cons, List.sum_nil,
        hf t (Nat.lt_succ_self t)]
      ring

theorem chunks_files_as_range (r : FileSequenceRecipe) :
    r.chunks_files = (List.range r.num_chunks).map fun k =>
      (r.file_urls.drop (k * r.files_per_chunk)).take r.files_per_chunk := by
  rw [FileSequenceRecipe.num_chunks, chunks_files_length]
  rfl

theorem total_sequence_len_eq (r : FileSequenceRecipe) (hc : 1 ≤ r.files_per_chunk)
    (hm : 1 ≤ r.num_chunks) :
    r.total_sequence_len =
      (r.num_chunks - 1) * (r.nitems_per_file * r.files_per_chunk) +
        r.region_nitems (r.num_chunks - 1) := by
  have hform : r.total_sequence_len =
      ((List.range r.num_chunks).map fun k => r.region_nitems k).sum := by
    rw [FileSequenceRecipe.total_sequence_len, chunks_files_as_range, List.map_map]
    refine congrArg List.sum (List.map_congr_left fun k _ => ?_)
    simp [Function.comp, List.length_take, List.length_drop,
      FileSequenceRecipe.region_nitems]
  rw [hform]
  obtain ⟨m, hm'⟩ : ∃ m, r.num_chunks = m + 1 := ⟨r.num_chunks - 1, by omega⟩
  rw [hm', List.range_succ, List.map_append, List.sum_append,
    sum_map_range_const m (r.nitems_per_file * r.files_per_chunk) _
      (fun k hk => by
        rw [FileSequenceRecipe.region_nitems, full_chunk_min r hc k (by omega)])]
  simp

theorem regions_adjacent_nat (r : FileSequenceRecipe) (hc : 1 ≤ r.files_per_chunk)
    (k : Nat) (hk0 : 0 < k) (hkm : k < r.num_chunks) :
    r.region_start k = r.region_start (k - 1) + r.region_nitems (k - 1) := by
  obtain ⟨j, rfl⟩ : ∃ j, k = j + 1 := ⟨k - 1, by omega⟩
  simp only [Nat.add_sub_cancel, FileSequenceRecipe.region_start,
    FileSequenceRecipe.region_nitems, full_chunk_min r hc j (by omega)]
  ring

theorem regions_no_overlap_nat (r : FileSequenceRecipe)
    (j k : Nat) (hjk : j < k) :
    r.region_start j + r.region_nitems j ≤ r.region_start k := by
  simp only [FileSequenceRecipe.region_start, FileSequenceRecipe.region_nitems]
  have h1 : r.nitems_per_file *
      min r.files_per_chunk (r.file_urls.length - j * r.files_per_chunk) ≤
      r.nitems_per_file * r.files_per_chunk :=
    Nat.mul_le_mul_left _ (Nat.min_le_left _ _)
  have h2 : (j + 1) * (r.nitems_per_file * r.files_per_chunk) ≤
      k * (r.nitems_per_file * r.files_per_chunk) :=
    Nat.mul_le_mul_right _ (by omega)
  rw [add_mul, one_mul] at h2
  omega

theorem regions_cover_nat (r : FileSequenceRecipe) (hc : 1 ≤ r.files_per_chunk)
    (hi : 1 ≤ r.nitems_per_file) (P : Nat) (hP : P < r.total_sequence_len) :
    ∃ k, k < r.num_chunks ∧
      r.region_start k ≤ P ∧ P < r.region_start k + r.region_nitems k := by
  have hm : 1 ≤ r.num_chunks := by
    by_contra hm
    have hm0 : r.chunks_files.length = 0 := by
      have h0 : r.num_chunks = 0 := by omega
      simpa [FileSequenceRecipe.num_chunks] using h0
    have : r.total_sequence_len = 0 := by
      rw [FileSequenceRecipe.total_sequence_len, List.length_eq_zero.mp hm0]
      simp
    omega
  have hs0 : 0 < r.nitems_per_file * r.files_per_chunk := Nat.mul_pos hi hc
  have htot := total_sequence_len_eq r hc hm
  rcases lt_or_ge P
      ((r.num_chunks - 1) * (r.nitems_per_file * r.files_per_chunk)) with hcase | hcase
  · -- a full (non-final) chunk covers P
    have hcase' : P < (r.nitems_per_file * r.files_per_chunk) * (r.num_chunks - 1) := by
      rw [Nat.mul_comm]
      exact hcase
    have hklt : P / (r.nitems_per_file * r.files_per_chunk) < r.num_chunks - 1 :=
      Nat.div_lt_of_lt_mul hcase'
    refine ⟨P / (r.nitems_per_file * r.files_per_chunk), by omega, ?_, ?_⟩
    · rw [FileSequenceRecipe.region_start]
      exact Nat.div_mul_le_self P _
    · rw [FileSequenceRecipe.region_start, FileSequenceRecipe.region_nitems,
        full_chunk_min r hc _ (by omega)]
      have h1 : P / (r.nitems_per_file * r.files_per_chunk) *
          (r.nitems_per_file * r.files_per_chunk) +
          P % (r.nitems_per_file * r.files_per_chunk) = P := by
        rw [Nat.mul_comm]
        exact Nat.div_add_mod P _
      have h2 : P % (r.nitems_per_file * r.files_per_chunk) <
          r.nitems_per_file * r.files_per_chunk := Nat.mod_lt P hs0
      omega
  · -- the final chunk covers P
    refine ⟨r.num_chunks - 1, by omega, ?_, ?_⟩
    · rw [FileSequenceRecipe.region_start]
      exact hcase
    · rw [FileSequenceRecipe.region_start]
      omega

/-- C1: with `files_per_chunk >= 1` and `nitems_per_file >= 1`, the write
regions of consecutive valid chunk keys abut (`region(k).start =
region(k-1).stop` for `k > 0`), the first region starts at 0, regions of
distinct chunks never overlap, and every point of the growth dimension
(`[0, total_sequence_len)`) lies in some chunk's region: the regions tile
the growth dimension with no gaps or overlaps. -/
theorem C1_write_regions_tile (r : FileSequenceRecipe)
    (hc : 1 ≤ r.files_per_chunk) (hi : 1 ≤ r.nitems_per_file) :
    (∀ rg, r.region_for_chunk 0 = Except.ok rg → rg.start = 0) ∧
    (∀ k : Nat, 0 < k → k < r.num_chunks →
      ∀ rg rg', r.region_for_chunk (k : Int) = Except.ok rg →
        r.region_for_chunk ((k - 1 : Nat) : Int) = Except.ok rg' →
          rg.start = rg'.stop) ∧
    (∀ j k : Nat, j < k → k < r.num_chunks →
      ∀ rgj rgk, r.region_for_chunk (j : Int) = Except.ok rgj →
        r.region_for_chunk (k : Int) = Except.ok rgk →
          rgj.stop ≤ rgk.start) ∧
    (∀ p : Int, 0 ≤ p → p < (r.total_sequence_len : Int) →
      ∃ k : Nat, k < r.num_chunks ∧ ∃ rg, r.region_for_chunk (k : Int) = Except.ok rg ∧
        rg.start ≤ p ∧ p < rg.stop) := by
  refine ⟨?_, ?_, ?_, ?_⟩
  · -- region(0).start = 0
    intro rg hrg
    rcases Nat.eq_zero_or_pos r.num_chunks with hm | hm
    · exfalso
      have herr := inputs_for_chunk_err r 0 (by omega)
      simp [FileSequenceRecipe.region_for_chunk, FileSequenceRecipe.nitems_for_chunk,
        FileSequenceRecipe.filenames_for_chunk, herr, Except.map] at hrg
    · have h0 := region_for_chunk_ok r 0 hm
      rw [Nat.cast_zero] at h0
      rw [h0] at hrg
      cases hrg
      simp [FileSequenceRecipe.region_start]
  · -- adjacency
    intro k hk0 hkm rg rg' hrg hrg'
    have hprev : k - 1 < r.num_chunks := by omega
    rw [region_for_chunk_ok r k hkm] at hrg
    rw [region_for_chunk_ok r (k - 1) hprev] at hrg'
    cases hrg; cases hrg'
    have hnat := regions_adjacent_nat r hc k hk0 hkm
    dsimp only
    exact_mod_cast hnat
  · -- no overlap
    intro j k hjk hkm rgj rgk hrgj hrgk
    have hjm : j < r.num_chunks := by omega
    rw [region_for_chunk_ok r j hjm] at hrgj
    rw [region_for_chunk_ok r k hkm] at hrgk
    cases hrgj; cases hrgk
    dsimp only
    exact_mod_cast regions_no_overlap_nat r j k hjk
  · -- coverage
    intro p hp0 hptot
    have hPlt : p.toNat < r.total_sequence_len := by omega
    obtain ⟨k, hk, hlo, hhi⟩ := regions_cover_nat r hc hi p.toNat hPlt
    refine ⟨k, hk, _, region_for_chunk_ok r k hk, ?_, ?_⟩
    · dsimp only
      have : ((r.region_start k : Nat) : Int) ≤ (p.toNat : Int) := by exact_mod_cast hlo
      omega
    · dsimp only
      have : (p.toNat : Int) < ((r.region_start k + r.region_nitems k : Nat) : Int) := by
        exact_mod_cast hhi
      omega

/-- Witness for C1: the hypotheses hold for the ten-file scenario, and the
regions of chunks 0 and 1 abut there. -/
theorem C1_write_regions_tile_witness :
    1 ≤ rec10.files_per_chunk ∧ 1 ≤ rec10.nitems_per_file ∧
    (WriteRegion.mk "time" 3 6).start = (WriteRegion.mk "time" 0 3).stop :=
  ⟨by decide, by decide,
   (C1_write_regions_tile rec10 (by decide) (by decide)).2.1 1 (by decide) (by decide)
     ⟨"time", 3, 6⟩ ⟨"time", 0, 3⟩ rfl rfl⟩

/-- C2: whenever the plan resolves chunk `k` to a list of input keys,
`nitems_for_chunk k` is exactly `nitems_per_file` times the number of those
input keys. -/
theorem C2_nitems_for_chunk_eq (r : FileSequenceRecipe) (k : Int) (files : List String)
    (h : r.inputs_for_chunk k = Except.ok files) :
    r.nitems_for_chunk k = Except.ok (r.nitems_per_file * files.length) := by
  simp [FileSequenceRecipe.nitems_for_chunk, FileSequenceRecipe.filenames_for_chunk, h,
    Except.map]

/-- Witness for C2: the last (partial) chunk of the ten-file scenario holds
one file, so its item count is `1 * 1`. -/
theorem C2_nitems_for_chunk_eq_witness :
    rec10.inputs_for_chunk 3 = Except.ok ["f9"] ∧
    rec10.nitems_for_chunk 3 = Except.ok (rec10.nitems_per_file * ["f9"].length) :=
  ⟨rfl, C2_nitems_for_chunk_eq rec10 3 ["f9"] rfl⟩

/-- C3: ten files with `files_per_chunk = 3` and `nitems_per_file = 1` give
exactly four chunk keys 0..3, with write regions `[0,3)`, `[3,6)`, `[6,9)`
and `[9,10)` along the growth dimension. -/
theorem C3_ten_files_scenario :
    rec10.num_chunks = 4 ∧
    rec10.iter_chunks = [0, 1, 2, 3] ∧
    rec10.region_for_chunk 0 = Except.ok ⟨"time", 0, 3⟩ ∧
    rec10.region_for_chunk 1 = Except.ok ⟨"time", 3, 6⟩ ∧
    rec10.region_for_chunk 2 = Except.ok ⟨"time", 6, 9⟩ ∧
    rec10.region_for_chunk 3 = Except.ok ⟨"time", 9, 10⟩ := by
  exact ⟨by decide, by decide, rfl, rfl, rfl, rfl⟩

/-- C4: resolving a chunk's inputs succeeds exactly for chunk keys in
`[0, num_chunks)` and fails (the dict lookup raises `KeyError`, the failure
the spec's taxonomy names `UnknownChunkError`) for every key outside that
range, where `num_chunks = ceil(len(file_urls) / files_per_chunk)`. -/
theorem C4_plan_domain (r : FileSequenceRecipe) (hc : 1 ≤ r.files_per_chunk) :
    (∀ k : Int, (∃ files, r.inputs_for_chunk k = Except.ok files) ↔
      0 ≤ k ∧ k < (r.num_chunks : Int)) ∧
    (∀ k : Int, ¬(0 ≤ k ∧ k < (r.num_chunks : Int)) →
      r.inputs_for_chunk k = Except.error PyError.keyError) ∧
    r.num_chunks =
      (r.file_urls.length + r.files_per_chunk - 1) / r.files_per_chunk := by
  refine ⟨?_, inputs_for_chunk_err r, ?_⟩
  · intro k
    constructor
    · rintro ⟨files, hfiles⟩
      by_contra hk
      rw [inputs_for_chunk_err r k hk] at hfiles
      exact absurd hfiles (by simp)
    · rintro ⟨h0, hlt⟩
      have hk : k.toNat < r.num_chunks := by omega
      have := inputs_for_chunk_ok r k.toNat hk
      rw [Int.toNat_of_nonneg h0] at this
      exact ⟨_, this⟩
  · simpa [FileSequenceRecipe.num_chunks] using chunks_files_length r

/-- Witness for C4: in the ten-file scenario (`num_chunks = 4`), key 4 fails
and key 2 succeeds. -/
theorem C4_plan_domain_witness :
    1 ≤ rec10.files_per_chunk ∧
    rec10.inputs_for_chunk 4 = Except.error PyError.keyError ∧
    (∃ files, rec10.inputs_for_chunk 2 = Except.ok files) ∧
    rec10.num_chunks = (10 + 3 - 1) / 3 :=
  ⟨by decide,
   (C4_plan_domain rec10 (by decide)).2.1 4 (by decide),
   ((C4_plan_domain rec10 (by decide)).1 2).mpr (by decide),
   (C4_plan_domain rec10 (by decide)).2.2⟩

/-- `finalize` (recipe.py:61-62): `FileSequenceRecipe` does not override it,
so the inherited `DatasetRecipe.finalize` runs and unconditionally raises
`NotImplementedError`.  The `written` argument records which chunk keys have
had their regions written so far; it is threaded only so that the spec's
finalize property can be stated -- the code ignores it (and inspects no
state at all). -/
def FileSequenceRecipe.finalize (_r : FileSequenceRecipe) (_written : List Int) :
    Except PyError Unit :=
  Except.error PyError.notImplementedError

/-- C8 as stated is false on the code: in the ten-file scenario with chunk 3
never written, `finalize` raises `NotImplementedError`, not the
`IncompleteWriteError` the claim requires, and it performs no size
verification (its result does not depend on the write state at all). -/
theorem C8_finalize_counterexample :
    rec10.finalize [0, 1, 2] = Except.error PyError.notImplementedError ∧
    PyError.notImplementedError ≠ PyError.incompleteWriteError ∧
    rec10.finalize [0, 1, 2] = rec10.finalize [0, 1, 2, 3] := by
  exact ⟨rfl, by decide, rfl⟩

/-- C8 amended: `finalize()` is inherited unimplemented from `DatasetRecipe`
and always fails with `NotImplementedError`, whatever the write state: it
performs no size verification and never raises `IncompleteWriteError`, but
it also never silently succeeds with unwritten regions (it never succeeds
at all). -/
theorem C8_finalize_not_implemented (r : FileSequenceRecipe) (written : List Int) :
    r.finalize written = Except.error PyError.notImplementedError ∧
    r.finalize written ≠ Except.error PyError.incompleteWriteError ∧
    ∀ u : Unit, r.finalize written ≠ Except.ok u := by
  refine ⟨rfl, by simp [FileSequenceRecipe.finalize], fun u => by
    simp [FileSequenceRecipe.finalize]⟩

/-- A Python attribute value, as far as the claims need to distinguish:
a string, an int, some other non-callable object, or a method. -/
inductive PyAttr where
  | strAttr (s : String)
  | intAttr (n : Nat)
  | objAttr (ty : String)
  | methodAttr (name : String)
  deriving DecidableEq, Repr

/-- Only methods are callable among the attribute values above; calling
anything else raises `TypeError`. -/
def PyAttr.callable : PyAttr → Bool
  | .methodAttr _ => true
  | _ => false

/-- The class-level attributes a `FileSequenceRecipe` instance can reach:
the methods defined in the class body (recipe.py:162-229) -- including
`sequence_dim`, bound to the function defined at recipe.py:186 -- and
those inherited from `DatasetRecipe` (recipe.py:46-62). -/
def classAttrs : List (String × PyAttr) :=
  [("__post_init__", PyAttr.methodAttr "__post_init__"),
   ("inputs_for_chunk", PyAttr.methodAttr "inputs_for_chunk"),
   ("nitems_for_chunk", PyAttr.methodAttr "nitems_for_chunk"),
   ("region_for_chunk", PyAttr.methodAttr "region_for_chunk"),
   ("sequence_dim", PyAttr.methodAttr "sequence_dim"),
   ("sequence_chunks", PyAttr.methodAttr "sequence_chunks"),
   ("iter_chunks", PyAttr.methodAttr "iter_chunks"),
   ("prepare", PyAttr.methodAttr "prepare"),
   ("iter_inputs", PyAttr.methodAttr "iter_inputs"),
   ("cache_input", PyAttr.methodAttr "cache_input"),
   ("store_chunk", PyAttr.methodAttr "store_chunk"),
   ("finalize", PyAttr.methodAttr "finalize")]

/-- The instance attributes set by the dataclass-generated `__init__` from
the annotated fields (recipe.py:44,156-159) and by `__post_init__`
(recipe.py:163).  In particular `sequence_dim` is bound to the constructor
argument, a string. -/
def FileSequenceRecipe.instanceAttrs (r : FileSequenceRecipe) : List (String × PyAttr) :=
  [("target", PyAttr.objAttr "Target"),
   ("file_urls", PyAttr.objAttr "list"),
   ("sequence_dim", PyAttr.strAttr r.sequence_dim),
   ("files_per_chunk", PyAttr.intAttr r.files_per_chunk),
   ("nitems_per_file", PyAttr.intAttr r.nitems_per_file),
   ("_chunks_files", PyAttr.objAttr "dict")]

/-- Python attribute lookup on an instance: the instance `__dict__` first,
then the class (and its bases). -/
def FileSequenceRecipe.getattr (r : FileSequenceRecipe) (name : String) : Option PyAttr :=
  ((r.instanceAttrs).lookup name).orElse fun _ => classAttrs.lookup name

/-- The body of the method `sequence_dim` at recipe.py:186-191: the dict
`{self.sequence_dim: sum(nitems_for_chunk(k) for k in iter_chunks())}`
(with the dict key being the instance's string field). -/
def FileSequenceRecipe.sequence_dim_method_body (r : FileSequenceRecipe) : String × Nat :=
  (r.sequence_dim, r.total_sequence_len)

/-- Evaluation of the expression `self.sequence_dim()` at recipe.py:221:
look up the attribute `sequence_dim` on the instance, then call it.  Only a
method is callable; calling the string field raises `TypeError`. -/
def FileSequenceRecipe.eval_sequence_dim_call (r : FileSequenceRecipe) :
    Except PyError (String × Nat) :=
  match r.getattr "sequence_dim" with
  | none => Except.error (PyError.attributeError "sequence_dim")
  | some (PyAttr.methodAttr _) => Except.ok r.sequence_dim_method_body
  | some _ => Except.error (PyError.typeError "object is not callable")

/-- C10: on every constructed instance, the class does hold a method named
`sequence_dim` (recipe.py:186), but instance attribute lookup returns the
string field of the same name, which shadows it; hence the expression
`self.sequence_dim()` in `prepare` (recipe.py:221) always evaluates to a
`TypeError` (a string is not callable) and never to the method body's size
mapping. -/
theorem C10_sequence_dim_shadowing (r : FileSequenceRecipe) :
    classAttrs.lookup "sequence_dim" = some (PyAttr.methodAttr "sequence_dim") ∧
    r.getattr "sequence_dim" = some (PyAttr.strAttr r.sequence_dim) ∧
    PyAttr.callable (PyAttr.strAttr r.sequence_dim) = false ∧
    r.eval_sequence_dim_call = Except.error (PyError.typeError "object is not callable") ∧
    r.eval_sequence_dim_call ≠ Except.ok r.sequence_dim_method_body := by
  refine ⟨rfl, rfl, rfl, rfl, ?_⟩
  intro h
  rw [show r.eval_sequence_dim_call =
    Except.error (PyError.typeError "object is not callable") from rfl] at h
  exact absurd h (by simp)

/-- Faithful evaluation of `prepare` (recipe.py:203-229) on an instance and
a target that may or may not already hold a dataset.  Statement by
statement: `target_store = self.get_store_target()` resolves the attribute
`get_store_target`, which is defined nowhere in the file, so every call
raises `AttributeError` at once.  Were a store handle obtained, the
open-or-create phase would run (modelled: an existing dataset is reused,
otherwise a placeholder sized to the first chunk is created -- the source's
creation line writes to an undefined name `path`, recipe.py:213), and
execution would in any case stop at `N = self.sequence_dim()`
(recipe.py:221, see `eval_sequence_dim_call`) before any resize. -/
def FileSequenceRecipe.prepare_eval (r : FileSequenceRecipe) (existing : Option TargetStore) :
    Except PyError TargetStore :=
  match r.getattr "get_store_target" with
  | none => Except.error (PyError.attributeError "get_store_target")
  | some a =>
    if PyAttr.callable a then
      let ds : TargetStore := match existing with
        | some ds => ds
        | none => ⟨List.replicate (r.region_nitems 0) 0⟩
      match r.eval_sequence_dim_call with
      | Except.error e => Except.error e
      | Except.ok n => Except.ok ⟨(ds.cells ++ List.replicate (n.2 - ds.cells.length) 0).take n.2⟩
    else Except.error (PyError.typeError "object is not callable")

/-- C7 fails on the code: `prepare()` never completes on any instance or
target state -- its first statement already raises `AttributeError`
(`get_store_target` is defined nowhere; the planner/writer side defines
`open_target`, and recipe.py:213 additionally writes to the undefined name
`path`), and even past that it would raise `TypeError` at
`N = self.sequence_dim()` (recipe.py:221).  So `prepare` is never the
successful idempotent no-op the claim describes; it aborts before touching
the target. -/
theorem C7_prepare_always_fails (r : FileSequenceRecipe) (existing : Option TargetStore) :
    r.prepare_eval existing = Except.error (PyError.attributeError "get_store_target") ∧
    ∀ ts, r.prepare_eval existing ≠ Except.ok ts := by
  refine ⟨rfl, fun ts h => ?_⟩
  rw [show r.prepare_eval existing =
    Except.error (PyError.attributeError "get_store_target") from rfl] at h
  exact absurd h (by simp)

/-- Modelled from the spec: the effect of
`ds_chunk.to_zarr(target_mapper, region=write_region)` (recipe.py:137).
xarray/zarr are external collaborators; per spec sections 4.4 and 6, a
region-indexed write replaces exactly the cells with indices in
`[start, stop)` along the growth dimension with the unit's data and touches
nothing else. -/
def TargetStore.write_at (ts : TargetStore) (start stop : Int) (data : List Int) :
    TargetStore :=
  ⟨(List.range ts.cells.length).map fun (idx : Nat) =>
    if start ≤ (idx : Int) ∧ (idx : Int) < stop then
      data.getD ((idx : Int) - start).toNat (ts.cells.getD idx 0)
    else ts.cells.getD idx 0⟩

theorem write_at_length (ts : TargetStore) (a b : Int) (d : List Int) :
    (ts.write_at a b d).cells.length = ts.cells.length := by
  simp [TargetStore.write_at]

theorem write_at_getD (ts : TargetStore) (a b : Int) (d : List Int) (idx : Nat)
    (h : idx < ts.cells.length) :
    (ts.write_at a b d).cells.getD idx 0 =
      if a ≤ (idx : Int) ∧ (idx : Int) < b then
        d.getD ((idx : Int) - a).toNat (ts.cells.getD idx 0)
      else ts.cells.getD idx 0 := by
  simp [TargetStore.write_at, List.getD_eq_getElem?_getD, List.getElem?_map,
    List.getElem?_range, h]

/-- `XarrayConcatChunkOpener.open_chunk` (recipe.py:120-125): resolve the
chunk's inputs, open each through the (possibly caching) opener, decode each
into its items, and concatenate in order.  `xr.open_dataset` and `xr.concat`
are external; decoding is modelled by the map `decode` from an input's bytes
to its decoded items, and the order-preserving concatenation by list
append (spec section 6, `Combine`). -/
def open_chunk_model (source : String → List Nat) (require_cache : Bool)
    (cache : InputCache) (decode : List Nat → List Int) (r : FileSequenceRecipe)
    (k : Int) : Except PyError (List Int) :=
  match r.inputs_for_chunk k with
  | Except.error e => Except.error e
  | Except.ok files =>
    match files.mapM (fun f => (input_opener source require_cache cache f).map decode) with
    | Except.error e => Except.error e
    | Except.ok dsets => Except.ok dsets.flatten

/-- `ZarrWriterMixin.store_chunk` (recipe.py:130-139): open the chunk, get
the target mapper, and write the combined unit into the target at the
chunk's write region.  recipe.py:136 calls `self.get_write_region`, a name
defined nowhere in the file; the region function the class defines is
`region_for_chunk`, whose own comment says it returns "a dict suitable to
pass to xr.to_zarr(region=...)", so the dangling name is resolved to it
(spec section 9 treats such dangling references as latent defects). -/
def FileSequenceRecipe.store_chunk_eval (source : String → List Nat)
    (require_cache : Bool) (cache : InputCache) (decode : List Nat → List Int)
    (r : FileSequenceRecipe) (k : Int) : Except PyError TargetStore :=
  match open_chunk_model source require_cache cache decode r k with
  | Except.error e => Except.error e
  | Except.ok ds_chunk =>
    match r.region_for_chunk k with
    | Except.error e => Except.error e
    | Except.ok rg => Except.ok (r.target.write_at rg.start rg.stop ds_chunk)

theorem input_opener_false_ok (source : String → List Nat) (cache : InputCache)
    (f : String) : ∃ b, input_opener source false cache f = Except.ok b := by
  rw [input_opener]
  by_cases hex : cache.existsKey f
  · rw [if_pos hex]
    cases hcr : cache.openRead f with
    | some bytes => exact ⟨bytes, rfl⟩
    | none =>
        exfalso
        rw [InputCache.existsKey] at hex
        rw [show cache.entries.lookup f = cache.openRead f from rfl, hcr] at hex
        simp at hex
  · rw [if_neg hex]
    exact ⟨open_direct source f, rfl⟩

theorem mapM_open_ok (source : String → List Nat) (cache : InputCache)
    (decode : List Nat → List Int) (files : List String) :
    ∃ ds : List (List Int),
      files.mapM (fun f => (input_opener source false cache f).map decode) =
        Except.ok ds := by
  induction files with
  | nil => exact ⟨[], rfl⟩
  | cons f fs ih =>
      obtain ⟨ds, hds⟩ := ih
      obtain ⟨b, hb⟩ := input_opener_false_ok source cache f
      refine ⟨decode b :: ds, ?_⟩
      rw [List.mapM_cons, hb]
      simp only [show Except.map decode (Except.ok b : Except PyError (List Nat)) =
        Except.ok (decode b) from rfl, hds]
      rfl

/-- C9: for every valid chunk key `k` (with caching not required, so opening
succeeds), `store_chunk` writes the combined decoded unit into the target at
exactly the planner's region for `k`: the store keeps its size, every cell
outside `write_region(k)` is unchanged, every in-bounds cell inside the
region holds the combined unit's data, and in particular the region of every
other chunk key is untouched. -/
theorem C9_store_chunk_frame (source : String → List Nat) (cache : InputCache)
    (decode : List Nat → List Int) (r : FileSequenceRecipe) (k : Nat)
    (hk : k < r.num_chunks) (rg : WriteRegion)
    (hrg : r.region_for_chunk (k : Int) = Except.ok rg) :
    ∃ combined ts2,
      open_chunk_model source false cache decode r (k : Int) = Except.ok combined ∧
      FileSequenceRecipe.store_chunk_eval source false cache decode r (k : Int) =
        Except.ok ts2 ∧
      ts2 = r.target.write_at rg.start rg.stop combined ∧
      ts2.cells.length = r.target.cells.length ∧
      (∀ idx : Nat, idx < r.target.cells.length →
        ¬(rg.start ≤ (idx : Int) ∧ (idx : Int) < rg.stop) →
        ts2.cells.getD idx 0 = r.target.cells.getD idx 0) ∧
      (∀ idx : Nat, idx < r.target.cells.length →
        rg.start ≤ (idx : Int) → (idx : Int) < rg.stop →
        ts2.cells.getD idx 0 =
          combined.getD ((idx : Int) - rg.start).toNat (r.target.cells.getD idx 0)) ∧
      (∀ k2 : Nat, k2 < r.num_chunks → k2 ≠ k →
        ∀ rg2, r.region_for_chunk (k2 : Int) = Except.ok rg2 →
        ∀ idx : Nat, idx < r.target.cells.length →
          rg2.start ≤ (idx : Int) → (idx : Int) < rg2.stop →
          ts2.cells.getD idx 0 = r.target.cells.getD idx 0) := by
  obtain ⟨files, hfiles⟩ : ∃ files, r.inputs_for_chunk (k : Int) = Except.ok files :=
    ⟨_, inputs_for_chunk_ok r k hk⟩
  obtain ⟨ds, hds⟩ := mapM_open_ok source cache decode files
  have hopen : open_chunk_model source false cache decode r (k : Int) =
      Except.ok ds.flatten := by
    rw [open_chunk_model, hfiles]
    dsimp only
    rw [hds]
  have hstore : FileSequenceRecipe.store_chunk_eval source false cache decode r (k : Int) =
      Except.ok (r.target.write_at rg.start rg.stop ds.flatten) := by
    rw [FileSequenceRecipe.store_chunk_eval, hopen]
    dsimp only
    rw [hrg]
  refine ⟨ds.flatten, r.target.write_at rg.start rg.stop ds.flatten, hopen, hstore, rfl,
    write_at_length _ _ _ _, ?_, ?_, ?_⟩
  · intro idx hidx hout
    rw [write_at_getD _ _ _ _ _ hidx, if_neg hout]
  · intro idx hidx h1 h2
    rw [write_at_getD _ _ _ _ _ hidx, if_pos ⟨h1, h2⟩]
  · intro k2 hk2 hne rg2 hrg2 idx hidx h1 h2
    rw [write_at_getD _ _ _ _ _ hidx]
    rw [region_for_chunk_ok r k hk] at hrg
    rw [region_for_chunk_ok r k2 hk2] at hrg2
    cases hrg
    cases hrg2
    dsimp only at h1 h2 ⊢
    rw [if_neg]
    rcases Nat.lt_or_ge k2 k with hlt | hge
    · -- rg2 lies entirely before rg
      have hno := regions_no_overlap_nat r k2 k hlt
      intro ⟨ha, _⟩
      have h2' : (idx : Int) < ((r.region_start k2 + r.region_nitems k2 : Nat) : Int) := h2
      have hno' : ((r.region_start k2 + r.region_nitems k2 : Nat) : Int) ≤
          ((r.region_start k : Nat) : Int) := by exact_mod_cast hno
      omega
    · -- rg2 lies entirely after rg
      have hlt' : k < k2 := by omega
      have hno := regions_no_overlap_nat r k k2 hlt'
      intro ⟨_, hb⟩
      have h1' : ((r.region_start k2 : Nat) : Int) ≤ (idx : Int) := h1
      have hno' : ((r.region_start k + r.region_nitems k : Nat) : Int) ≤
          ((r.region_start k2 : Nat) : Int) := by exact_mod_cast hno
      omega

/-- Witness for C9: chunk 1 of the ten-file scenario, an empty cache, the
direct source, and a one-item decoder. -/
theorem C9_store_chunk_frame_witness :
    ∃ combined ts2,
      open_chunk_model (fun _ => [1]) false (InputCache.mk []) (fun _ => [5]) rec10 ((1 : Nat) : Int) =
        Except.ok combined ∧
      FileSequenceRecipe.store_chunk_eval (fun _ => [1]) false (InputCache.mk [])
        (fun _ => [5]) rec10 ((1 : Nat) : Int) = Except.ok ts2 ∧
      ts2 = rec10.target.write_at (WriteRegion.mk "time" 3 6).start
        (WriteRegion.mk "time" 3 6).stop combined ∧
      ts2.cells.length = rec10.target.cells.length ∧
      (∀ idx : Nat, idx < rec10.target.cells.length →
        ¬((WriteRegion.mk "time" 3 6).start ≤ (idx : Int) ∧
          (idx : Int) < (WriteRegion.mk "time" 3 6).stop) →
        ts2.cells.getD idx 0 = rec10.target.cells.getD idx 0) ∧
      (∀ idx : Nat, idx < rec10.target.cells.length →
        (WriteRegion.mk "time" 3 6).start ≤ (idx : Int) →
        (idx : Int) < (WriteRegion.mk "time" 3 6).stop →
        ts2.cells.getD idx 0 =
          combined.getD ((idx : Int) - (WriteRegion.mk "time" 3 6).start).toNat
            (rec10.target.cells.getD idx 0)) ∧
      (∀ k2 : Nat, k2 < rec10.num_chunks → k2 ≠ 1 →
        ∀ rg2, rec10.region_for_chunk (k2 : Int) = Except.ok rg2 →
        ∀ idx : Nat, idx < rec10.target.cells.length →
          rg2.start ≤ (idx : Int) → (idx : Int) < rg2.stop →
          ts2.cells.getD idx 0 = rec10.target.cells.getD idx 0) :=
  C9_store_chunk_frame (fun _ => [1]) (InputCache.mk []) (fun _ => [5]) rec10 1
    (by decide) ⟨"time", 3, 6⟩ rfl

/-- Witness for C6: a concrete cache round-trip on an empty cache. -/
theorem C6_cache_round_trip_witness :
    input_opener (fun _ => [3, 4]) true (cache_input (fun _ => [3, 4]) (InputCache.mk []) "f0") "f0" =
      Except.ok (open_direct (fun _ => [3, 4]) "f0") :=
  (C6_cache_round_trip (fun _ => [3, 4]) (InputCache.mk []) true "f0").2

/-- Witness for C7: the concrete ten-file recipe with an existing (complete)
target dataset. -/
theorem C7_prepare_always_fails_witness :
    rec10.prepare_eval (some ⟨[0, 0, 0, 0, 0, 0, 0, 0, 0, 0]⟩) =
      Except.error (PyError.attributeError "get_store_target") :=
  (C7_prepare_always_fails rec10 (some ⟨[0, 0, 0, 0, 0, 0, 0, 0, 0, 0]⟩)).1

/-- Witness for C8's amended claim: finalize on the ten-file recipe with
every chunk written still raises `NotImplementedError`. -/
theorem C8_finalize_not_implemented_witness :
    rec10.finalize [0, 1, 2, 3] = Except.error PyError.notImplementedError :=
  (C8_finalize_not_implemented rec10 [0, 1, 2, 3]).1

/-- Witness for C10: the shadowed call on the concrete ten-file recipe. -/
theorem C10_sequence_dim_shadowing_witness :
    rec10.eval_sequence_dim_call = Except.error (PyError.typeError "object is not callable") :=
  (C10_sequence_dim_shadowing rec10).2.2.2.1

end PangeoForge
